import Mathlib

/-!
Verification development for the Analytics Telemetry Engine of skill-hub-plus
(`src-tauri/src/core/analytics_store.rs`, `analytics_alert.rs`,
`analytics_ingest.rs`).

The SQLite-backed store is embedded shallowly: each table is a Lean list of
row records, each store method is a Lean function on those lists, and SQL
aggregate expressions are translated operation by operation.  Rust `i64`
columns become `Int`, `f64` becomes `ℚ` (exact real arithmetic in place of
floating point), nullable columns become `Option`, and fallible operations
return `Except String`.  `uuid::Uuid::new_v4()` and the wall clock are
effects, so fresh ids and `now` are passed as explicit arguments.
-/

namespace SkillHub

/-- Row of the `skill_events` table (struct `SkillEventRow`). -/
structure SkillEventRow where
  id : String
  event_type : String
  skill_id : String
  timestamp : Int
  user_id : String
  session_id : String
  input_hash : Option String
  success : Bool
  duration_ms : Option Int
  error : Option String
  feedback_score : Option Int
  token_input : Option Int
  token_output : Option Int
  api_cost_usd : Option ℚ
  caller_agent : Option String
  caller_workflow : Option String
  caller_tool : Option String
  metadata_json : Option String
deriving DecidableEq

/-- Row of the `skill_daily_stats` table (struct `DailyStats`). -/
structure DailyStats where
  skill_id : String
  date : String
  total_calls : Int
  success_count : Int
  fail_count : Int
  p50_ms : Option Int
  p95_ms : Option Int
  p99_ms : Option Int
  avg_ms : Option ℚ
  unique_users : Int
  total_cost_usd : ℚ
  thumbs_up : Int
  thumbs_down : Int
deriving DecidableEq

/-- Row of the `analytics_alerts` table (struct `AnalyticsAlert`). -/
structure AnalyticsAlert where
  id : String
  skill_id : String
  alert_type : String
  severity : String
  message : String
  detected_at : Int
  resolved_at : Option Int
  acknowledged : Bool
deriving DecidableEq

/-- Result of `AnalyticsStore::get_overview` (struct `AnalyticsOverview`). -/
structure AnalyticsOverview where
  total_calls : Int
  success_rate : ℚ
  p95_latency_ms : Option Int
  active_users : Int
  total_calls_delta_pct : Option ℚ
  success_rate_delta : Option ℚ
  p95_latency_delta_ms : Option Int
  active_users_delta : Option Int
deriving DecidableEq

/-- Entry of `get_top_skills` / `get_cost_summary` (struct `TopSkillEntry`). -/
structure TopSkillEntry where
  skill_id : String
  call_count : Int
  success_rate : ℚ
  avg_latency_ms : Option ℚ
deriving DecidableEq

/-- Entry of `get_caller_analysis` (struct `CallerDependency`). -/
structure CallerDependency where
  caller_agent : String
  caller_tool : String
  skill_id : String
  call_count : Int
deriving DecidableEq

/-- Entry of `get_user_retention` (struct `UserRetentionPair`). -/
structure UserRetentionPair where
  skill_a : String
  skill_b : String
  users_both : Int
  users_a_only : Int
  retention_rate : ℚ
deriving DecidableEq

/-! Sorting helpers.  SQL `ORDER BY` returns the rows in ascending order of
the key; the insertion sort below is the executable embedding of that
ordering (for `Int` keys the sorted value sequence is unique, which is all
the percentile queries depend on). -/

/-- Insert `x` into an already sorted list, keeping it sorted under `le`. -/
def insertSortedBy {α : Type} (le : α → α → Bool) (x : α) : List α → List α
  | [] => [x]
  | y :: ys => if le x y then x :: y :: ys else y :: insertSortedBy le x ys

/-- Sort a list in ascending order of `le` (embedding of SQL `ORDER BY`). -/
def sortListBy {α : Type} (le : α → α → Bool) (l : List α) : List α :=
  l.foldr (insertSortedBy le) []

/-- Sort machine integers ascending (`ORDER BY duration_ms ASC`). -/
def sortIntAsc (l : List Int) : List Int :=
  sortListBy (fun a b => decide (a ≤ b)) l

/-- Lexicographic comparison of character lists by code point. -/
def charListLe : List Char → List Char → Bool
  | [], _ => true
  | _ :: _, [] => false
  | c :: cs, d :: ds =>
    if c.val < d.val then true
    else if d.val < c.val then false
    else charListLe cs ds

/-- SQLite TEXT comparison (`date >= ...` on ISO date strings): plain
lexicographic byte order, which on ASCII dates is code-point order. -/
def strLe (a b : String) : Bool :=
  charListLe a.data b.data

/-! Embedding of `AnalyticsStore`.  The three tables are explicit lists; the
single mutex-guarded connection serialises all calls, so each method is one
atomic function from table states to table states. -/

/-- Check whether a row with primary key `u` already exists in
`skill_events` (the duplicate test performed by `INSERT OR IGNORE`). -/
def tblHasId (tbl : List SkillEventRow) (u : String) : Bool :=
  tbl.any (fun r => decide (r.id = u))

/-- Number of stored `skill_events` rows carrying id `i`. -/
def countId (tbl : List SkillEventRow) (i : String) : Nat :=
  tbl.countP (fun r => decide (r.id = i))

/-- One `INSERT OR IGNORE INTO skill_events ...` statement: on a duplicate
primary key the row is silently dropped, otherwise it is appended. -/
def insertOrIgnore (tbl : List SkillEventRow) (e : SkillEventRow) : List SkillEventRow :=
  if tblHasId tbl e.id then tbl else tbl ++ [e]

/-- `AnalyticsStore::insert_events`: one transaction inserting every row of
the batch with `INSERT OR IGNORE`, incrementing `count` per loop iteration
(so duplicates still count); returns the new table and the count. -/
def insertEvents (tbl : List SkillEventRow) (events : List SkillEventRow) :
    List SkillEventRow × Nat :=
  events.foldl (fun st e => (insertOrIgnore st.1 e, st.2 + 1)) (tbl, 0)

/-- Replay a sequence of `insert_events` batches against a table state. -/
def applyBatches (tbl : List SkillEventRow) (batches : List (List SkillEventRow)) :
    List SkillEventRow :=
  batches.foldl (fun t b => (insertEvents t b).1) tbl

/-- SQL `COUNT(DISTINCT user_id)` over a set of event rows. -/
def distinctUsers (rows : List SkillEventRow) : Nat :=
  ((rows.map (fun e => e.user_id)).eraseDups).length

/-- The p95 query used by `get_overview` and the alert detector:
`SELECT duration_ms ... ORDER BY duration_ms ASC LIMIT 1 OFFSET
(SELECT CAST(COUNT(*) * 0.95 AS INTEGER) ...)`.  `CAST` truncates the
non-negative product, i.e. the offset is `floor(0.95 * N)`; with no row at
that offset (in particular `N = 0`) `query_row` fails and `.ok()` turns the
failure into `None`. -/
def p95FromDurations (durs : List Int) : Option Int :=
  let sorted := sortIntAsc durs
  ((sorted.drop (sorted.length * 95 / 100)).head?)

/-- Modelled from the spec: the nearest-rank percentile estimator, "the
value at the 0-indexed offset `floor(N * f)` when samples are sorted
ascending", absent when there is no such sample.  Stated separately from
`p95FromDurations` (the SQL translation) so the two can be compared. -/
def nearestRankPercentile (f : ℚ) (samples : List Int) : Option Int :=
  (sortIntAsc samples)[(Nat.floor ((samples.length : ℚ) * f))]?

/-- Durations with non-NULL `duration_ms` in the current overview window
(`timestamp >= now - days*86400`). -/
def overviewWindowDurations (events : List SkillEventRow) (days now : Int) : List Int :=
  (events.filter (fun e => decide (now - days * 86400 ≤ e.timestamp))).filterMap
    (fun e => e.duration_ms)

/-- Durations with non-NULL `duration_ms` in the preceding overview window
(`prev_start <= timestamp < period_start`). -/
def overviewPrevDurations (events : List SkillEventRow) (days now : Int) : List Int :=
  (events.filter (fun e =>
    decide ((now - days * 86400) - days * 86400 ≤ e.timestamp ∧
            e.timestamp < now - days * 86400))).filterMap (fun e => e.duration_ms)

/-- `AnalyticsStore::get_overview`.  Note the first aggregate query: over an
empty window SQL `SUM(...)` is NULL, extracting it as `i64` fails
(`InvalidColumnType`) and the `?` propagates the error, so the
`total_calls == 0` fallback to rate `1.0` is unreachable.  The preceding
window runs the same query but guards it with `unwrap_or((0, 0, 0))`. -/
def getOverview (events : List SkillEventRow) (days now : Int) :
    Except String AnalyticsOverview :=
  let periodStart := now - days * 86400
  let prevStart := periodStart - days * 86400
  let cur := events.filter (fun e => decide (periodStart ≤ e.timestamp))
  if cur.length = 0 then Except.error ("InvalidColumnType")
  else
    let totalCalls := cur.length
    let successCount := cur.countP (fun e => e.success)
    let activeUsers := distinctUsers cur
    let p95 := p95FromDurations (overviewWindowDurations events days now)
    let successRate : ℚ :=
      if 0 < totalCalls then (successCount : ℚ) / (totalCalls : ℚ) else 1
    let prev := events.filter (fun e =>
      decide (prevStart ≤ e.timestamp ∧ e.timestamp < periodStart))
    let prevTriple : Nat × Nat × Nat :=
      if prev.length = 0 then (0, 0, 0)
      else (prev.length, prev.countP (fun e => e.success), distinctUsers prev)
    let prevTotal := prevTriple.1
    let prevSuccess := prevTriple.2.1
    let prevUsers := prevTriple.2.2
    let prevRate : ℚ :=
      if 0 < prevTotal then (prevSuccess : ℚ) / (prevTotal : ℚ) else 1
    let deltaPct : Option ℚ :=
      if 0 < prevTotal then
        some ((((totalCalls : ℚ) - (prevTotal : ℚ)) / (prevTotal : ℚ)) * 100)
      else none
    let prevP95 := p95FromDurations (overviewPrevDurations events days now)
    Except.ok {
      total_calls := (totalCalls : Int),
      success_rate := successRate,
      p95_latency_ms := p95,
      active_users := (activeUsers : Int),
      total_calls_delta_pct := deltaPct,
      success_rate_delta := some (successRate - prevRate),
      p95_latency_delta_ms :=
        match p95, prevP95 with
        | some c, some p => some (c - p)
        | _, _ => none,
      active_users_delta := some ((activeUsers : Int) - (prevUsers : Int)) }

/-! Embedding of `AlertDetector` (`analytics_alert.rs`). -/

/-- Events of `skill_id` in the trailing one-hour window
(`skill_id = ? AND timestamp >= now - 3600`). -/
def hourWindow (events : List SkillEventRow) (skillId : String) (now : Int) :
    List SkillEventRow :=
  events.filter (fun e => decide (e.skill_id = skillId ∧ now - 3600 ≤ e.timestamp))

/-- SQL `SUM(CASE WHEN success=0 THEN 1 ELSE 0 END)` over a window. -/
def failCount (rows : List SkillEventRow) : Nat :=
  rows.countP (fun e => !e.success)

/-- Message of a failure-spike alert.  The Rust code formats the rate with
`{:.1}%`; floating-point text formatting is abstracted here, the message
carries the raw counts exactly as the source does. -/
def failureSpikeMsg (skillId : String) (failures total : Nat) : String :=
  "Skill " ++ skillId ++ " failure rate is high (" ++ toString failures ++
    "/" ++ toString total ++ ") in the last hour"

/-- `AlertDetector::check_failure_spike`: over the trailing hour of the
skill, alert when `total > 20` and `failures as f64 / total as f64 > 0.10`
(exact rational arithmetic embeds the f64 computation).  Over an empty
window the `SUM` aggregate is NULL, its `i64` extraction fails and `?`
propagates the error. -/
def checkFailureSpike (events : List SkillEventRow) (skillId : String) (now : Int) :
    Except String (Option String) :=
  let window := hourWindow events skillId now
  let total := window.length
  if total = 0 then Except.error ("InvalidColumnType")
  else
    let failures := failCount window
    if 20 < total ∧ (1 : ℚ) / 10 < (failures : ℚ) / (total : ℚ) then
      Except.ok (some (failureSpikeMsg skillId failures total))
    else
      Except.ok none

/-- Durations of the skill in the trailing hour (`timestamp >= now - 3600`),
the current sample set of `check_latency_spike`. -/
def detectorCurrentDurations (events : List SkillEventRow) (skillId : String)
    (now : Int) : List Int :=
  (events.filter (fun e =>
    decide (e.skill_id = skillId ∧ now - 3600 ≤ e.timestamp))).filterMap
    (fun e => e.duration_ms)

/-- Durations of the skill in the same one-hour window 24 hours earlier
(`yesterday_start <= timestamp < yesterday_end`). -/
def detectorPrevDurations (events : List SkillEventRow) (skillId : String)
    (now : Int) : List Int :=
  (events.filter (fun e =>
    decide (e.skill_id = skillId ∧ (now - 3600) - 86400 ≤ e.timestamp ∧
            e.timestamp < now - 86400))).filterMap (fun e => e.duration_ms)

/-- Message of a latency-spike alert (percentage formatting abstracted as in
`failureSpikeMsg`). -/
def latencySpikeMsg (skillId : String) (prev cur : Int) : String :=
  "Skill " ++ skillId ++ " P95 latency spiked from " ++ toString prev ++
    "ms to " ++ toString cur ++ "ms"

/-- `AlertDetector::check_latency_spike`: both p95 queries are guarded with
`.ok()`, so a missing sample becomes `None`; alert only when both exist,
`prev > 0` and `cur > prev * 3`. -/
def checkLatencySpike (events : List SkillEventRow) (skillId : String) (now : Int) :
    Option String :=
  match p95FromDurations (detectorCurrentDurations events skillId now),
        p95FromDurations (detectorPrevDurations events skillId now) with
  | some cur, some prev =>
      if 0 < prev ∧ prev * 3 < cur then
        some (latencySpikeMsg skillId prev cur)
      else none
  | _, _ => none

/-- Unresolved alerts of one `(skill_id, alert_type)` pair:
`SELECT COUNT(*) ... WHERE skill_id = ? AND alert_type = ? AND resolved_at IS NULL`. -/
def unresolvedCount (alerts : List AnalyticsAlert) (skill ty : String) : Nat :=
  alerts.countP (fun a =>
    decide (a.skill_id = skill ∧ a.alert_type = ty ∧ a.resolved_at = none))

/-- `AlertDetector::insert_alert`: count the unresolved alerts of the same
`(skill_id, alert_type)` and insert only when none exists; the fresh row has
`resolved_at` NULL and `acknowledged` at its column default `0`.  The fresh
uuid and `now` are passed in. -/
def insertAlert (alerts : List AnalyticsAlert) (newId skill ty sev msg : String)
    (now : Int) : List AnalyticsAlert :=
  if unresolvedCount alerts skill ty = 0 then
    alerts ++ [{ id := newId, skill_id := skill, alert_type := ty,
                 severity := sev, message := msg, detected_at := now,
                 resolved_at := none, acknowledged := false }]
  else alerts

/-- `AlertDetector::run_checks`: failure-spike check first (its storage
error propagates), then the latency check; each firing check inserts an
alert row with its fixed type and severity and pushes its message. -/
def runChecks (events : List SkillEventRow) (alerts : List AnalyticsAlert)
    (skillId : String) (now : Int) (uuid1 uuid2 : String) :
    Except String (List AnalyticsAlert × List String) :=
  match checkFailureSpike events skillId now with
  | Except.error e => Except.error e
  | Except.ok fsRes =>
    let st1 : List AnalyticsAlert × List String :=
      match fsRes with
      | some msg => (insertAlert alerts uuid1 skillId ("failure_spike") ("critical") msg now, [msg])
      | none => (alerts, [])
    let st2 : List AnalyticsAlert × List String :=
      match checkLatencySpike events skillId now with
      | some msg => (insertAlert st1.1 uuid2 skillId ("latency_spike") ("warning") msg now, st1.2 ++ [msg])
      | none => st1
    Except.ok st2

/-! Embedding of the ingest path (`analytics_ingest.rs`). -/

/-- Wire shape of the optional `cost` object (struct `IngestCost`). -/
structure IngestCost where
  token_input : Option Int
  token_output : Option Int
  api_cost_usd : Option ℚ
deriving DecidableEq

/-- Wire shape of the optional `caller` object (struct `IngestCaller`). -/
structure IngestCaller where
  agent_id : Option String
  workflow_id : Option String
  tool_key : Option String
deriving DecidableEq

/-- Wire shape of one element of the `events` array of `POST /v1/events`
(struct `IngestEvent`).  It has no `id` field; `metadata` is an opaque JSON
value, kept here as its rendered text. -/
structure IngestEvent where
  event_type : String
  skill_id : String
  timestamp : String
  user_id : String
  session_id : String
  input_hash : Option String
  success : Bool
  duration_ms : Option Int
  error : Option String
  feedback_score : Option Int
  cost : Option IngestCost
  caller : Option IngestCaller
  metadata : Option String
deriving DecidableEq

/-- `IngestEvent::to_row`.  `parseRfc3339` stands for
`chrono::DateTime::parse_from_rfc3339(..).map(|dt| dt.timestamp())` (an
external crate), `freshUuid` for `uuid::Uuid::new_v4().to_string()` and
`now` for the wall-clock fallback used when parsing fails.  The stored `id`
is the freshly generated uuid. -/
def toRow (parseRfc3339 : String → Option Int) (freshUuid : String) (now : Int)
    (e : IngestEvent) : SkillEventRow :=
  { id := freshUuid,
    event_type := e.event_type,
    skill_id := e.skill_id,
    timestamp := (parseRfc3339 e.timestamp).getD now,
    user_id := e.user_id,
    session_id := e.session_id,
    input_hash := e.input_hash,
    success := e.success,
    duration_ms := e.duration_ms,
    error := e.error,
    feedback_score := e.feedback_score,
    token_input := e.cost.bind (fun c => c.token_input),
    token_output := e.cost.bind (fun c => c.token_output),
    api_cost_usd := e.cost.bind (fun c => c.api_cost_usd),
    caller_agent := e.caller.bind (fun c => c.agent_id),
    caller_workflow := e.caller.bind (fun c => c.workflow_id),
    caller_tool := e.caller.bind (fun c => c.tool_key),
    metadata_json := e.metadata }

/-- An HTTP response of the ingest server: status code and body text. -/
structure HttpResponse where
  status : Nat
  body : String
deriving DecidableEq

/-- Render an `Option Int` field as JSON (`serde_json` abstracted). -/
def optIntStr (o : Option Int) : String :=
  match o with
  | some v => toString v
  | none => "null"

/-- Render an `Option ℚ` field as JSON.  `serde_json` prints an `f64`; the
exact rational is printed instead, which only changes the textual form of
the number. -/
def optRatStr (o : Option ℚ) : String :=
  match o with
  | some v => toString v
  | none => "null"

/-- JSON rendering of an `AnalyticsOverview` (field order as in the struct). -/
def renderOverview (ov : AnalyticsOverview) : String :=
  "\x7b\"total_calls\":" ++ toString ov.total_calls ++
    ",\"success_rate\":" ++ toString ov.success_rate ++
    ",\"p95_latency_ms\":" ++ optIntStr ov.p95_latency_ms ++
    ",\"active_users\":" ++ toString ov.active_users ++
    ",\"total_calls_delta_pct\":" ++ optRatStr ov.total_calls_delta_pct ++
    ",\"success_rate_delta\":" ++ optRatStr ov.success_rate_delta ++
    ",\"p95_latency_delta_ms\":" ++ optIntStr ov.p95_latency_delta_ms ++
    ",\"active_users_delta\":" ++ optIntStr ov.active_users_delta ++ "\x7d"

/-- JSON rendering of a list (`serde_json::to_string` of a `Vec`). -/
def renderJsonList {α : Type} (renderItem : α → String) (xs : List α) : String :=
  "[" ++ String.intercalate (",") (xs.map renderItem) ++ "]"

/-- JSON rendering of a `TopSkillEntry`. -/
def renderTopSkillEntry (t : TopSkillEntry) : String :=
  "\x7b\"skill_id\":\"" ++ t.skill_id ++ "\",\"call_count\":" ++
    toString t.call_count ++ ",\"success_rate\":" ++ toString t.success_rate ++
    ",\"avg_latency_ms\":" ++ optRatStr t.avg_latency_ms ++ "\x7d"

/-- JSON rendering of a `DailyStats` row. -/
def renderDailyStats (d : DailyStats) : String :=
  "\x7b\"skill_id\":\"" ++ d.skill_id ++ "\",\"date\":\"" ++ d.date ++
    "\",\"total_calls\":" ++ toString d.total_calls ++ "\x7d"

/-- JSON rendering of a `CallerDependency`. -/
def renderCallerDependency (c : CallerDependency) : String :=
  "\x7b\"caller_agent\":\"" ++ c.caller_agent ++ "\",\"skill_id\":\"" ++
    c.skill_id ++ "\",\"call_count\":" ++ toString c.call_count ++ "\x7d"

/-- JSON rendering of a `UserRetentionPair`. -/
def renderUserRetentionPair (p : UserRetentionPair) : String :=
  "\x7b\"skill_a\":\"" ++ p.skill_a ++ "\",\"skill_b\":\"" ++ p.skill_b ++
    "\",\"users_both\":" ++ toString p.users_both ++ "\x7d"

/-- JSON rendering of an `AnalyticsAlert`. -/
def renderAlert (a : AnalyticsAlert) : String :=
  "\x7b\"id\":\"" ++ a.id ++ "\",\"skill_id\":\"" ++ a.skill_id ++
    "\",\"alert_type\":\"" ++ a.alert_type ++ "\"\x7d"

/-- Response of `POST /v1/events` as a function of the store call result:
`200 {"accepted": n}` on success, `500 {"error": "Internal error: ..."}` on
a storage failure. -/
def postEventsResponse (result : Except String Nat) : HttpResponse :=
  match result with
  | Except.ok count =>
      { status := 200, body := "\x7b\"accepted\": " ++ toString count ++ "\x7d" }
  | Except.error err =>
      { status := 500,
        body := "\x7b\"error\": \"Internal error: " ++ err ++ "\"\x7d" }

/-- Response of `GET /v1/analytics/overview`: the handler matches on the
store result but wraps either body in a response with status 200. -/
def overviewQueryResponse (result : Except String AnalyticsOverview) : HttpResponse :=
  { status := 200,
    body :=
      match result with
      | Except.ok ov => renderOverview ov
      | Except.error _ => "\x7b\"error\": \"Failed to fetch overview\"\x7d" }

/-- Response of `GET /v1/analytics/top_skills`
(`store.get_top_skills(..).unwrap_or_default()`, always status 200). -/
def topSkillsQueryResponse (result : Except String (List TopSkillEntry)) : HttpResponse :=
  { status := 200,
    body := renderJsonList renderTopSkillEntry (result.toOption.getD []) }

/-- Response of `GET /v1/analytics/daily_trend` (`unwrap_or_default`). -/
def dailyTrendQueryResponse (result : Except String (List DailyStats)) : HttpResponse :=
  { status := 200, body := renderJsonList renderDailyStats (result.toOption.getD []) }

/-- Response of `GET /v1/analytics/success_rate` (`unwrap_or_default`). -/
def successRateQueryResponse (result : Except String (List DailyStats)) : HttpResponse :=
  { status := 200, body := renderJsonList renderDailyStats (result.toOption.getD []) }

/-- Response of `GET /v1/analytics/cost_summary` (`unwrap_or_default`). -/
def costSummaryQueryResponse (result : Except String (List TopSkillEntry)) : HttpResponse :=
  { status := 200,
    body := renderJsonList renderTopSkillEntry (result.toOption.getD []) }

/-- Response of `GET /v1/analytics/caller_analysis` (`unwrap_or_default`). -/
def callerAnalysisQueryResponse (result : Except String (List CallerDependency)) :
    HttpResponse :=
  { status := 200,
    body := renderJsonList renderCallerDependency (result.toOption.getD []) }

/-- Response of `GET /v1/analytics/user_retention` (`unwrap_or_default`). -/
def userRetentionQueryResponse (result : Except String (List UserRetentionPair)) :
    HttpResponse :=
  { status := 200,
    body := renderJsonList renderUserRetentionPair (result.toOption.getD []) }

/-- Response of `GET /v1/analytics/alerts` (`unwrap_or_default`). -/
def alertsQueryResponse (result : Except String (List AnalyticsAlert)) : HttpResponse :=
  { status := 200, body := renderJsonList renderAlert (result.toOption.getD []) }

/-- Response for an unknown route. -/
def notFoundResponse : HttpResponse :=
  { status := 404, body := "Not Found" }

/-! Embedding of `AnalyticsStore::ensure_schema`.  The SQLite file is
modelled by its stored `PRAGMA user_version` (which the analytics code
never reads or writes) together with the existence of the three tables the
`CREATE TABLE IF NOT EXISTS` batch creates. -/

/-- State of the on-disk SQLite database as far as the schema is concerned. -/
structure SqliteFile where
  userVersion : Int
  hasSkillEvents : Bool
  hasDailyStats : Bool
  hasAlerts : Bool
deriving DecidableEq

/-- `AnalyticsStore::ensure_schema`: one idempotent
`CREATE TABLE IF NOT EXISTS` / `CREATE INDEX IF NOT EXISTS` batch.  It
inspects no stored version and has no failure branch of its own. -/
def ensureSchema (db : SqliteFile) : Except String SqliteFile :=
  Except.ok { db with hasSkillEvents := true, hasDailyStats := true, hasAlerts := true }

/-! Embedding of `AnalyticsStore::aggregate_daily_stats` and
`get_success_rate_trend`. -/

/-- Civil date from days since 1970-01-01 (the arithmetic behind SQLite
`date(ts, 'unixepoch')`); `/` on `Int` here is floor division. -/
def civilFromDays (z : Int) : Int × Int × Int :=
  let z2 := z + 719468
  let era := z2 / 146097
  let doe := z2 - era * 146097
  let yoe := (doe - doe / 1460 + doe / 36524 - doe / 146096) / 365
  let y := yoe + era * 400
  let doy := doe - (365 * yoe + yoe / 4 - yoe / 100)
  let mp := (5 * doy + 2) / 153
  let d := doy - (153 * mp + 2) / 5 + 1
  let m := mp + (if mp < 10 then 3 else -9)
  (if m ≤ 2 then y + 1 else y, m, d)

/-- Zero-pad a month or day number to two digits. -/
def pad2 (n : Int) : String :=
  if n < 10 then "0" ++ toString n else toString n

/-- SQLite `date(ts, 'unixepoch')`: the `YYYY-MM-DD` text of the UTC day
containing epoch second `ts`. -/
def dateOfUnix (ts : Int) : String :=
  let p := civilFromDays (ts / 86400)
  toString p.1 ++ "-" ++ pad2 p.2.1 ++ "-" ++ pad2 p.2.2

/-- SQL `AVG(duration_ms)`: NULL rows are skipped, NULL when no row remains. -/
def avgDurations (ds : List Int) : Option ℚ :=
  if ds.length = 0 then none else some ((ds.sum : ℚ) / (ds.length : ℚ))

/-- SQL `AVG` over an already rational-valued nullable column. -/
def avgRats (qs : List ℚ) : Option ℚ :=
  if qs.length = 0 then none else some (qs.sum / (qs.length : ℚ))

/-- `AnalyticsStore::aggregate_daily_stats`: one `INSERT OR REPLACE` row per
skill present on `date`, computed from the raw events of that day.  The
`SELECT` list writes `NULL, NULL, NULL` into `p50_ms, p95_ms, p99_ms`. -/
def aggregateDailyStats (events : List SkillEventRow) (date : String) :
    List DailyStats :=
  let dayEvents := events.filter (fun e => decide (dateOfUnix e.timestamp = date))
  let skills := (dayEvents.map (fun e => e.skill_id)).eraseDups
  skills.map (fun sid =>
    let rows := dayEvents.filter (fun e => decide (e.skill_id = sid))
    { skill_id := sid,
      date := date,
      total_calls := (rows.length : Int),
      success_count := (rows.countP (fun e => e.success) : Int),
      fail_count := (rows.countP (fun e => !e.success) : Int),
      p50_ms := none,
      p95_ms := none,
      p99_ms := none,
      avg_ms := avgDurations (rows.filterMap (fun e => e.duration_ms)),
      unique_users := (distinctUsers rows : Int),
      total_cost_usd := (rows.filterMap (fun e => e.api_cost_usd)).sum,
      thumbs_up := (rows.countP (fun e => decide (e.feedback_score = some 1)) : Int),
      thumbs_down := (rows.countP (fun e => decide (e.feedback_score = some (-1))) : Int) })

/-- `AnalyticsStore::get_success_rate_trend`: with a skill id, the stored
`skill_daily_stats` rows of that skill in the window, ordered by date; with
none, per-date sums across skills with the percentile columns selected as
`NULL, NULL, NULL`. -/
def getSuccessRateTrend (stats : List DailyStats) (skillId : Option String)
    (days now : Int) : List DailyStats :=
  let since := dateOfUnix (now - days * 86400)
  match skillId with
  | some sid =>
      sortListBy (fun a b => strLe a.date b.date)
        (stats.filter (fun r => decide (r.skill_id = sid) && strLe since r.date))
  | none =>
      let rows := stats.filter (fun r => strLe since r.date)
      let dates := (rows.map (fun r => r.date)).eraseDups
      sortListBy (fun a b => strLe a.date b.date)
        (dates.map (fun d =>
          let group := rows.filter (fun r => decide (r.date = d))
          { skill_id := "all",
            date := d,
            total_calls := (group.map (fun r => r.total_calls)).sum,
            success_count := (group.map (fun r => r.success_count)).sum,
            fail_count := (group.map (fun r => r.fail_count)).sum,
            p50_ms := none,
            p95_ms := none,
            p99_ms := none,
            avg_ms := avgRats (group.filterMap (fun r => r.avg_ms)),
            unique_users := (group.map (fun r => r.unique_users)).sum,
            total_cost_usd := (group.map (fun r => r.total_cost_usd)).sum,
            thumbs_up := (group.map (fun r => r.thumbs_up)).sum,
            thumbs_down := (group.map (fun r => r.thumbs_down)).sum }))

/-! Concrete fixtures used by the closed instances below (mirroring the
shape of the events the repository builds in its own tests). -/

/-- Build an event row the way the repository test helper `make_event`
does, with explicit id, timestamp and duration. -/
def mkEvent (i skillId : String) (success : Bool) (ts : Int) (dur : Option Int) :
    SkillEventRow :=
  { id := i, event_type := "skill_invoke", skill_id := skillId, timestamp := ts,
    user_id := "u", session_id := "sess", input_hash := none, success := success,
    duration_ms := dur, error := none, feedback_score := none, token_input := none,
    token_output := none, api_cost_usd := none, caller_agent := none,
    caller_workflow := none, caller_tool := none, metadata_json := none }

/-- A batch of `n` successful calls of skill `s` inside the hour window. -/
def okEvents (n : Nat) : List SkillEventRow :=
  (List.range n).map (fun k => mkEvent ("ok" ++ toString k) ("s") true 100 (some 50))

/-- A batch of `n` failed calls of skill `s` inside the hour window. -/
def badEvents (n : Nat) : List SkillEventRow :=
  (List.range n).map (fun k => mkEvent ("bad" ++ toString k) ("s") false 100 (some 50))

/-- 21 calls in the trailing hour, 3 of them failures. -/
def spike21 : List SkillEventRow := okEvents 18 ++ badEvents 3

/-- 20 calls in the trailing hour, 3 of them failures. -/
def spike20 : List SkillEventRow := okEvents 17 ++ badEvents 3

/-- A single current-hour sample with an extreme latency and no data a day
earlier. -/
def onlyCur : SkillEventRow := mkEvent ("only") ("s") true 3000 (some 1000000000)

/-- A prior-day sample (inside the window one day before `now = 100000`). -/
def latPrevEv : SkillEventRow := mkEvent ("p") ("s") true 10000 (some 10)

/-- A current-hour sample more than three times slower than `latPrevEv`. -/
def latCurEv : SkillEventRow := mkEvent ("c") ("s") true 99000 (some 100)

/-- A store with one successful event carrying a 42 ms duration. -/
def ovEvents : List SkillEventRow := [mkEvent ("w") ("s") true 100 (some 42)]

/-- The overview computed from `ovEvents` with `days = 7`, `now = 200`. -/
def ov0 : AnalyticsOverview :=
  { total_calls := 1,
    success_rate := ((1 : ℕ) : ℚ) / ((1 : ℕ) : ℚ),
    p95_latency_ms := some 42,
    active_users := 1,
    total_calls_delta_pct := none,
    success_rate_delta := some (((1 : ℕ) : ℚ) / ((1 : ℕ) : ℚ) - 1),
    p95_latency_delta_ms := none,
    active_users_delta := some 1 }

/-- A wire event as a client would submit it (no `id` field exists). -/
def wireEvent0 : IngestEvent :=
  { event_type := "skill_invoke", skill_id := "s",
    timestamp := "2024-01-01T00:00:00Z", user_id := "u", session_id := "sess",
    input_hash := none, success := true, duration_ms := some 5, error := none,
    feedback_score := none, cost := none, caller := none, metadata := none }

/-- Stand-in for the chrono RFC3339 parser on the strings used here. -/
def rfc3339Demo : String → Option Int :=
  fun s => if s = "2024-01-01T00:00:00Z" then some 1704067200 else none

/-- One raw event on 1970-01-01 without a duration or cost. -/
def aggEvent : SkillEventRow := mkEvent ("d") ("s") true 0 none

/-- The daily-stats table produced by aggregating `aggEvent`. -/
def aggStats : List DailyStats := aggregateDailyStats [aggEvent] ("1970-01-01")

/-- The rollup row `aggregateDailyStats` writes for `aggEvent`. -/
def aggRow : DailyStats :=
  { skill_id := "s", date := "1970-01-01", total_calls := 1, success_count := 1,
    fail_count := 0, p50_ms := none, p95_ms := none, p99_ms := none,
    avg_ms := none, unique_users := 1, total_cost_usd := 0, thumbs_up := 0,
    thumbs_down := 0 }

/-! Helper lemmas. -/

/-- Auxiliary: the counting foldl of `insertEvents` splits into a table
foldl of `insertOrIgnore` and the batch length. -/
theorem insertEvents_foldl (evs : List SkillEventRow) :
    ∀ (tbl : List SkillEventRow) (c : Nat),
      evs.foldl (fun st e => (insertOrIgnore st.1 e, st.2 + 1)) (tbl, c) =
        (evs.foldl insertOrIgnore tbl, c + evs.length) := by
  induction evs with
  | nil => intro tbl c; simp
  | cons e evs ih =>
      intro tbl c
      simp only [List.foldl_cons, List.length_cons, ih]
      have h : c + 1 + evs.length = c + (evs.length + 1) := by omega
      rw [h]

/-- Auxiliary: `insert_events` of a singleton batch is one `insertOrIgnore`. -/
theorem insertEvents_single (tbl : List SkillEventRow) (r : SkillEventRow) :
    (insertEvents tbl [r]).1 = insertOrIgnore tbl r := rfl

/-- Auxiliary: id counts add over table concatenation. -/
theorem countId_append (t1 t2 : List SkillEventRow) (i : String) :
    countId (t1 ++ t2) i = countId t1 i + countId t2 i :=
  List.countP_append _ _ _

/-- Auxiliary: a positive id count means the duplicate test fires. -/
theorem tblHasId_of_countId_pos {tbl : List SkillEventRow} {i : String}
    (h : 0 < countId tbl i) : tblHasId tbl i = true := by
  obtain ⟨r, hr, hri⟩ := List.countP_pos_iff.mp h
  exact List.any_eq_true.mpr ⟨r, hr, hri⟩

/-- Auxiliary: `insertOrIgnore` preserves an id count of one. -/
theorem countId_insertOrIgnore_of_eq_one {tbl : List SkillEventRow} {i : String}
    (e : SkillEventRow) (h : countId tbl i = 1) :
    countId (insertOrIgnore tbl e) i = 1 := by
  unfold insertOrIgnore
  by_cases hb : tblHasId tbl e.id = true
  · simp [hb, h]
  · have hne : ¬ (e.id = i) := by
      intro hei
      apply hb
      apply tblHasId_of_countId_pos
      rw [hei, h]
      omega
    have hb2 : tblHasId tbl e.id = false := by
      simpa using hb
    rw [hb2]
    simp only [Bool.false_eq_true, if_false]
    rw [countId_append, h]
    simp [countId, List.countP_cons, hne]

/-- Auxiliary: a whole `insertOrIgnore` foldl preserves an id count of one. -/
theorem countId_foldl_of_eq_one (evs : List SkillEventRow) :
    ∀ (tbl : List SkillEventRow) (i : String), countId tbl i = 1 →
      countId (evs.foldl insertOrIgnore tbl) i = 1 := by
  induction evs with
  | nil => intro tbl i h; simpa using h
  | cons e evs ih =>
      intro tbl i h
      exact ih _ _ (countId_insertOrIgnore_of_eq_one e h)

/-- Auxiliary: replaying any batch sequence preserves an id count of one. -/
theorem countId_applyBatches_of_eq_one (bs : List (List SkillEventRow)) :
    ∀ (tbl : List SkillEventRow) (i : String), countId tbl i = 1 →
      countId (applyBatches tbl bs) i = 1 := by
  induction bs with
  | nil => intro tbl i h; simpa [applyBatches] using h
  | cons b bs ih =>
      intro tbl i h
      have h1 : countId (insertEvents tbl b).1 i = 1 := by
        have hfst : (insertEvents tbl b).1 = b.foldl insertOrIgnore tbl := by
          rw [insertEvents, insertEvents_foldl]
        rw [hfst]
        exact countId_foldl_of_eq_one b tbl i h
      simpa [applyBatches, List.foldl_cons] using ih _ _ h1

/-- Auxiliary: the duplicate test over an extended table. -/
theorem tblHasId_append_single (tbl : List SkillEventRow) (r : SkillEventRow)
    (u : String) :
    tblHasId (tbl ++ [r]) u = (tblHasId tbl u || decide (r.id = u)) := by
  simp [tblHasId, List.any_append]

/-- Auxiliary: inserting into a sorted list grows its length by one. -/
theorem length_insertSortedBy {α : Type} (le : α → α → Bool) (x : α) :
    ∀ l : List α, (insertSortedBy le x l).length = l.length + 1 := by
  intro l
  induction l with
  | nil => rfl
  | cons y ys ih =>
      simp only [insertSortedBy]
      split
      · simp
      · simp [ih]

/-- Auxiliary: sorting preserves length. -/
theorem length_sortListBy {α : Type} (le : α → α → Bool) (l : List α) :
    (sortListBy le l).length = l.length := by
  induction l with
  | nil => rfl
  | cons x xs ih =>
      simp only [sortListBy, List.foldr_cons]
      rw [length_insertSortedBy]
      simp only [sortListBy] at ih
      rw [ih]
      simp

/-- Auxiliary: `sortIntAsc` preserves length. -/
theorem length_sortIntAsc (l : List Int) : (sortIntAsc l).length = l.length :=
  length_sortListBy _ l

/-- Auxiliary: membership in an insertion step. -/
theorem mem_insertSortedBy {α : Type} (le : α → α → Bool) (x a : α) :
    ∀ l : List α, a ∈ insertSortedBy le x l ↔ a = x ∨ a ∈ l := by
  intro l
  induction l with
  | nil => simp [insertSortedBy]
  | cons y ys ih =>
      simp only [insertSortedBy]
      split
      · simp [List.mem_cons]
      · simp only [List.mem_cons, ih]
        tauto

/-- Auxiliary: sorting preserves membership. -/
theorem mem_sortListBy {α : Type} (le : α → α → Bool) (a : α) :
    ∀ l : List α, a ∈ sortListBy le l ↔ a ∈ l := by
  intro l
  induction l with
  | nil => simp [sortListBy]
  | cons x xs ih =>
      simp only [sortListBy, List.foldr_cons]
      rw [mem_insertSortedBy]
      simp only [sortListBy] at ih
      rw [ih]
      simp [List.mem_cons]

/-- Auxiliary: the `LIMIT 1 OFFSET CAST(COUNT(*) * 0.95 AS INTEGER)` query
equals the nearest-rank formula at fraction `19/20`. -/
theorem p95_eq_nearestRank (durs : List Int) :
    p95FromDurations durs = nearestRankPercentile (19/20) durs := by
  simp only [p95FromDurations, nearestRankPercentile]
  rw [List.head?_drop, length_sortIntAsc]
  congr 1
  have h1 : ((durs.length : ℚ)) * (19/20) =
      ((durs.length * 19 : ℕ) : ℚ) / ((20 : ℕ) : ℚ) := by
    push_cast
    ring
  rw [h1, Nat.floor_div_nat, Nat.floor_natCast]
  have h2 : durs.length * 95 = durs.length * 19 * 5 := by ring
  have h3 : (100 : ℕ) = 20 * 5 := rfl
  rw [h2, h3, Nat.mul_div_mul_right _ _ (by norm_num)]

/-! Claim theorems. -/

/-- C1: `insert_events` processes the batch as one transaction of
`INSERT OR IGNORE` statements, returns the number of rows attempted (the
batch length, duplicates included), a row whose id is already stored is
ignored, and re-submitting batches any number of times leaves the stored
row count of an id that is stored once at exactly one. -/
theorem insert_events_contract (tbl evs : List SkillEventRow)
    (batches : List (List SkillEventRow)) (i : String) (e : SkillEventRow) :
    (insertEvents tbl evs).2 = evs.length ∧
    (tblHasId tbl e.id = true → insertOrIgnore tbl e = tbl) ∧
    (countId tbl i = 1 → countId (applyBatches tbl batches) i = 1) := by
  refine ⟨?_, ?_, ?_⟩
  · rw [insertEvents, insertEvents_foldl]
    simp
  · intro h
    simp [insertOrIgnore, h]
  · exact countId_applyBatches_of_eq_one batches tbl i

/-- C1 witness at a concrete table, batch and id. -/
theorem insert_events_contract_witness :
    (insertEvents [aggEvent] [aggEvent]).2 = 1 ∧
    insertOrIgnore [aggEvent] aggEvent = [aggEvent] ∧
    countId (applyBatches [aggEvent] [[aggEvent], [aggEvent]]) ("d") = 1 :=
  ⟨(insert_events_contract [aggEvent] [aggEvent] [[aggEvent], [aggEvent]] ("d") aggEvent).1,
   (insert_events_contract [aggEvent] [aggEvent] [[aggEvent], [aggEvent]] ("d") aggEvent).2.1
     (by decide),
   (insert_events_contract [aggEvent] [aggEvent] [[aggEvent], [aggEvent]] ("d") aggEvent).2.2
     (by decide)⟩

/-- C2: `insert_alert` checks for an existing unresolved row of the same
`(skill_id, alert_type)` before inserting, so it preserves the at-most-one
unresolved-alert invariant for every pair, and triggering the same alert
twice in a row yields exactly one unresolved row. -/
theorem alert_dedup_invariant (alerts : List AnalyticsAlert)
    (newId skill ty sev msg : String) (now : Int) (s2 ty2 : String) :
    (unresolvedCount alerts s2 ty2 ≤ 1 →
      unresolvedCount (insertAlert alerts newId skill ty sev msg now) s2 ty2 ≤ 1) ∧
    (unresolvedCount alerts skill ty = 0 →
      ∀ (id2 sev2 msg2 : String) (now2 : Int),
        unresolvedCount
          (insertAlert (insertAlert alerts newId skill ty sev msg now)
            id2 skill ty sev2 msg2 now2) skill ty = 1) := by
  constructor
  · intro h
    unfold insertAlert
    by_cases h0 : unresolvedCount alerts skill ty = 0
    · rw [if_pos h0]
      unfold unresolvedCount at h h0 ⊢
      rw [List.countP_append]
      by_cases hm : skill = s2 ∧ ty = ty2
      · have hz : alerts.countP (fun a =>
            decide (a.skill_id = s2 ∧ a.alert_type = ty2 ∧ a.resolved_at = none)) = 0 := by
          rw [← hm.1, ← hm.2]
          exact h0
        rw [hz]
        simp [List.countP_cons]
        split_ifs
        all_goals omega
      · have hone : List.countP (fun a =>
            decide (a.skill_id = s2 ∧ a.alert_type = ty2 ∧ a.resolved_at = none))
            [({ id := newId, skill_id := skill, alert_type := ty, severity := sev,
                message := msg, detected_at := now, resolved_at := none,
                acknowledged := false } : AnalyticsAlert)] = 0 := by
          simp only [List.countP_cons, List.countP_nil]
          simp
          intro hs ht
          exact hm ⟨hs, ht⟩
        rw [hone]
        omega
    · rw [if_neg h0]
      exact h
  · intro h0 id2 sev2 msg2 now2
    have hnoop : ∀ (al : List AnalyticsAlert) (nid sv2 m2 : String) (n2 : Int),
        unresolvedCount al skill ty ≠ 0 →
        insertAlert al nid skill ty sv2 m2 n2 = al := by
      intro al nid sv2 m2 n2 hz
      unfold insertAlert
      rw [if_neg hz]
    have h1 : unresolvedCount (insertAlert alerts newId skill ty sev msg now) skill ty = 1 := by
      unfold insertAlert
      rw [if_pos h0]
      unfold unresolvedCount at h0 ⊢
      rw [List.countP_append, h0]
      simp [List.countP_cons]
    rw [hnoop _ _ _ _ _ (by rw [h1]; omega)]
    exact h1

/-- C2 witness: two consecutive triggers of the same alert condition on an
empty alert table. -/
theorem alert_dedup_invariant_witness :
    unresolvedCount
      (insertAlert (insertAlert [] ("a1") ("s") ("failure_spike") ("critical") ("m") 5)
        ("a2") ("s") ("failure_spike") ("critical") ("m") 6) ("s") ("failure_spike") = 1 :=
  (alert_dedup_invariant [] ("a1") ("s") ("failure_spike") ("critical") ("m") 5
    ("s") ("failure_spike")).2 (by decide) ("a2") ("critical") ("m") 6

/-- C5: at the failing input (an empty trailing window, `T = 0`)
`get_overview` does not return an overview with `success_rate = 1.0` as the
specification states: the NULL `SUM` aggregate fails its `i64` extraction
and the error propagates, leaving the `total_calls == 0` branch dead. -/
theorem get_overview_empty_window_error :
    getOverview [] 7 0 = Except.error ("InvalidColumnType") := rfl

/-- C8 counterexample: opening a database whose stored schema version (999)
is newer than anything the engine knows succeeds: `ensure_schema` applies
its unconditional `CREATE ... IF NOT EXISTS` batch and returns no
`UnsupportedSchemaVersion` error. -/
theorem ensure_schema_future_version_cex :
    ensureSchema { userVersion := 999, hasSkillEvents := false,
                   hasDailyStats := false, hasAlerts := false } =
      Except.ok { userVersion := 999, hasSkillEvents := true,
                  hasDailyStats := true, hasAlerts := true } := rfl

/-- C8 amended: on every open, schema creation runs a single idempotent
`CREATE TABLE IF NOT EXISTS` batch; it reads no stored schema-version
integer, applies no incremental migrations, and succeeds for every stored
version. -/
theorem ensure_schema_unversioned (db : SqliteFile) :
    ensureSchema db =
      Except.ok { db with hasSkillEvents := true, hasDailyStats := true,
                          hasAlerts := true } := rfl

/-- C9 counterexample: a storage failure in a `GET /v1/analytics/*` handler
is answered with status 200, not 500 — `overview` wraps its error body in a
200 response and `top_skills` swallows the error via `unwrap_or_default`. -/
theorem http_get_error_status_cex :
    (overviewQueryResponse (Except.error ("disk error"))).status = 200 ∧
    (topSkillsQueryResponse (Except.error ("disk error"))).status = 200 :=
  ⟨rfl, rfl⟩

/-- C9 amended: on a storage failure only `POST /v1/events` answers 500
with an error body; every `GET /v1/analytics/*` handler answers 200 — the
overview with an error-message body, the others with the rendering of the
default empty result. -/
theorem http_storage_error_responses (err : String) :
    postEventsResponse (Except.error err) =
      { status := 500, body := "\x7b\"error\": \"Internal error: " ++ err ++ "\"\x7d" } ∧
    overviewQueryResponse (Except.error err) =
      { status := 200, body := "\x7b\"error\": \"Failed to fetch overview\"\x7d" } ∧
    topSkillsQueryResponse (Except.error err) = { status := 200, body := "[]" } ∧
    dailyTrendQueryResponse (Except.error err) = { status := 200, body := "[]" } ∧
    successRateQueryResponse (Except.error err) = { status := 200, body := "[]" } ∧
    costSummaryQueryResponse (Except.error err) = { status := 200, body := "[]" } ∧
    callerAnalysisQueryResponse (Except.error err) = { status := 200, body := "[]" } ∧
    userRetentionQueryResponse (Except.error err) = { status := 200, body := "[]" } ∧
    alertsQueryResponse (Except.error err) = { status := 200, body := "[]" } :=
  ⟨rfl, rfl, rfl, rfl, rfl, rfl, rfl, rfl, rfl⟩

/-- C7 counterexample: the stored id of an ingested event is the freshly
generated server-side uuid (the wire event has no id field), so submitting
the identical wire event twice stores two rows instead of being a silent
no-op with one stored row. -/
theorem ingest_resubmit_not_noop_cex :
    (toRow rfc3339Demo ("uuid-1") 0 wireEvent0).id = "uuid-1" ∧
    ((insertEvents ((insertEvents [] [toRow rfc3339Demo ("uuid-1") 0 wireEvent0]).1)
        [toRow rfc3339Demo ("uuid-2") 0 wireEvent0]).1).length = 2 :=
  ⟨rfl, by decide⟩

/-- C7 amended: the id persisted for every event ingested through
`POST /v1/events` is the server-generated fresh uuid, independent of the
caller-supplied fields, so re-submitting the same wire event (which gets a
new uuid) appends a new row each time; idempotency exists only at the store
level on the generated id. -/
theorem ingest_id_server_generated (parse : String → Option Int) (u1 u2 : String)
    (now : Int) (e : IngestEvent) (tbl : List SkillEventRow) :
    (toRow parse u1 now e).id = u1 ∧
    (u1 ≠ u2 → tblHasId tbl u1 = false → tblHasId tbl u2 = false →
      ((insertEvents ((insertEvents tbl [toRow parse u1 now e]).1)
          [toRow parse u2 now e]).1).length = tbl.length + 2) := by
  refine ⟨rfl, ?_⟩
  intro hne h1 h2
  have hid1 : (toRow parse u1 now e).id = u1 := rfl
  have hid2 : (toRow parse u2 now e).id = u2 := rfl
  rw [insertEvents_single, insertEvents_single]
  have st1 : insertOrIgnore tbl (toRow parse u1 now e) = tbl ++ [toRow parse u1 now e] := by
    unfold insertOrIgnore
    rw [hid1, h1]
    simp
  rw [st1]
  have st2 : insertOrIgnore (tbl ++ [toRow parse u1 now e]) (toRow parse u2 now e) =
      (tbl ++ [toRow parse u1 now e]) ++ [toRow parse u2 now e] := by
    unfold insertOrIgnore
    rw [hid2, tblHasId_append_single, h2, hid1]
    have hd : (decide (u1 = u2)) = false := by
      simp [hne]
    rw [hd]
    simp
  rw [st2]
  simp [List.length_append]

/-- C7 witness for the amended statement at concrete uuids and table. -/
theorem ingest_id_server_generated_witness :
    ((insertEvents ((insertEvents [] [toRow rfc3339Demo ("uuid-1") 0 wireEvent0]).1)
        [toRow rfc3339Demo ("uuid-2") 0 wireEvent0]).1).length =
      ([] : List SkillEventRow).length + 2 :=
  (ingest_id_server_generated rfc3339Demo ("uuid-1") ("uuid-2") 0 wireEvent0 []).2
    (by decide) (by decide) (by decide)

/-- C3: the failure-rate spike check fires (returns an alert message) iff
the trailing-hour window of the skill holds more than 20 calls with a
failure ratio above 1/10; concretely, 21 calls with 3 failures fire it, 20
calls with 3 failures do not (volume gate not met), and the fired alert is
inserted with type `failure_spike` and severity `critical`. -/
theorem failure_spike_spec :
    (∀ (events : List SkillEventRow) (skillId : String) (now : Int),
      (∃ msg, checkFailureSpike events skillId now = Except.ok (some msg)) ↔
        (20 < (hourWindow events skillId now).length ∧
         (1 : ℚ) / 10 <
           ((failCount (hourWindow events skillId now) : ℚ) /
            ((hourWindow events skillId now).length : ℚ)))) ∧
    checkFailureSpike spike21 ("s") 3600 =
      Except.ok (some (failureSpikeMsg ("s") 3 21)) ∧
    checkFailureSpike spike20 ("s") 3600 = Except.ok none ∧
    runChecks spike21 [] ("s") 3600 ("a1") ("a2") =
      Except.ok
        ([{ id := "a1", skill_id := "s", alert_type := "failure_spike",
            severity := "critical", message := failureSpikeMsg ("s") 3 21,
            detected_at := 3600, resolved_at := none, acknowledged := false }],
         [failureSpikeMsg ("s") 3 21]) := by
  have hwin21 : hourWindow spike21 ("s") 3600 = spike21 := by decide
  have hlen21 : spike21.length = 21 := by decide
  have hfail21 : failCount spike21 = 3 := by decide
  have h21 : checkFailureSpike spike21 ("s") 3600 =
      Except.ok (some (failureSpikeMsg ("s") 3 21)) := by
    simp only [checkFailureSpike]
    rw [hwin21, hlen21, hfail21]
    rw [if_neg (by norm_num), if_pos ⟨by norm_num, by push_cast; norm_num⟩]
  have hls21 : checkLatencySpike spike21 ("s") 3600 = none := by decide
  refine ⟨?_, h21, rfl, ?_⟩
  · intro events skillId now
    simp only [checkFailureSpike]
    split_ifs with h0 hc
    · constructor
      · rintro ⟨msg, hmsg⟩
        simp at hmsg
      · rintro ⟨hlen, -⟩
        rw [h0] at hlen
        omega
    · exact iff_of_true ⟨_, rfl⟩ hc
    · constructor
      · rintro ⟨msg, hmsg⟩
        simp at hmsg
      · intro hc2
        exact absurd hc2 hc
  · simp only [runChecks, h21, hls21]
    simp [insertAlert, unresolvedCount]

/-- C4: the latency-spike check fires iff both the trailing-hour p95 and
the p95 of the same hour window 24 hours earlier exist, the prior value is
positive and the current exceeds three times the prior; with only a
current-hour sample (no prior-day data) no alert fires regardless of the
latency, and a fired alert is inserted with type `latency_spike` and
severity `warning`. -/
theorem latency_spike_spec :
    (∀ (events : List SkillEventRow) (skillId : String) (now : Int),
      (∃ msg, checkLatencySpike events skillId now = some msg) ↔
        (∃ cur prev,
          p95FromDurations (detectorCurrentDurations events skillId now) = some cur ∧
          p95FromDurations (detectorPrevDurations events skillId now) = some prev ∧
          0 < prev ∧ prev * 3 < cur)) ∧
    (∀ (events : List SkillEventRow) (skillId : String) (now : Int),
      p95FromDurations (detectorPrevDurations events skillId now) = none →
      checkLatencySpike events skillId now = none) ∧
    checkLatencySpike [onlyCur] ("s") 3600 = none ∧
    runChecks [latPrevEv, latCurEv] [] ("s") 100000 ("a1") ("a2") =
      Except.ok
        ([{ id := "a2", skill_id := "s", alert_type := "latency_spike",
            severity := "warning", message := latencySpikeMsg ("s") 10 100,
            detected_at := 100000, resolved_at := none, acknowledged := false }],
         [latencySpikeMsg ("s") 10 100]) := by
  refine ⟨?_, ?_, by decide, rfl⟩
  · intro events skillId now
    unfold checkLatencySpike
    rcases hc : p95FromDurations (detectorCurrentDurations events skillId now) with _ | cur <;>
      rcases hp : p95FromDurations (detectorPrevDurations events skillId now) with _ | prev
    · simp
    · simp
    · simp
    · dsimp only
      split_ifs with hcond
      · exact iff_of_true ⟨_, rfl⟩ ⟨cur, prev, rfl, rfl, hcond.1, hcond.2⟩
      · refine iff_of_false (by simp) ?_
        rintro ⟨c, p, hc2, hp2, h3, h4⟩
        injection hc2 with e1
        injection hp2 with e2
        subst e1
        subst e2
        exact hcond ⟨h3, h4⟩
  · intro events skillId now hp
    unfold checkLatencySpike
    rw [hp]
    cases p95FromDurations (detectorCurrentDurations events skillId now) <;> rfl

/-- C4 witness for the no-prior-sample implication at a concrete store. -/
theorem latency_spike_spec_witness :
    p95FromDurations (detectorPrevDurations [onlyCur] ("s") 3600) = none ∧
    checkLatencySpike [onlyCur] ("s") 3600 = none :=
  ⟨by decide, latency_spike_spec.2.1 [onlyCur] ("s") 3600 (by decide)⟩

/-- C6: every percentile the engine computes (the overview p95 and the
detector current and prior p95 values) is the nearest-rank estimator: the
sorted sample at 0-indexed offset `floor(N * f)` for `f = 19/20`, with no
interpolation, and absent when `N = 0`. -/
theorem percentile_nearest_rank_spec :
    (∀ durs : List Int, p95FromDurations durs = nearestRankPercentile (19/20) durs) ∧
    (∀ durs : List Int, durs.length = 0 → p95FromDurations durs = none) ∧
    (∀ (events : List SkillEventRow) (days now : Int) (ov : AnalyticsOverview),
      getOverview events days now = Except.ok ov →
      ov.p95_latency_ms =
        nearestRankPercentile (19/20) (overviewWindowDurations events days now)) ∧
    (∀ (events : List SkillEventRow) (skillId : String) (now : Int),
      p95FromDurations (detectorCurrentDurations events skillId now) =
        nearestRankPercentile (19/20) (detectorCurrentDurations events skillId now) ∧
      p95FromDurations (detectorPrevDurations events skillId now) =
        nearestRankPercentile (19/20) (detectorPrevDurations events skillId now)) := by
  refine ⟨p95_eq_nearestRank, ?_, ?_, ?_⟩
  · intro durs h
    rw [List.length_eq_zero] at h
    subst h
    rfl
  · intro events days now ov h
    simp only [getOverview] at h
    split at h
    · exact Except.noConfusion h
    · rw [Except.ok.injEq] at h
      subst h
      exact p95_eq_nearestRank _
  · intro events skillId now
    exact ⟨p95_eq_nearestRank _, p95_eq_nearestRank _⟩

/-- C6 witness: a concrete overview instance and the empty sample set. -/
theorem percentile_nearest_rank_spec_witness :
    (getOverview ovEvents 7 200 = Except.ok ov0 ∧
      ov0.p95_latency_ms =
        nearestRankPercentile (19/20) (overviewWindowDurations ovEvents 7 200)) ∧
    (([] : List Int).length = 0 ∧ p95FromDurations [] = none) :=
  ⟨⟨rfl, percentile_nearest_rank_spec.2.2.1 ovEvents 7 200 ov0 rfl⟩,
   ⟨rfl, percentile_nearest_rank_spec.2.1 [] rfl⟩⟩

/-- C10: every `DailyStat` row written by `aggregate_daily_stats` has its
`p50_ms`, `p95_ms`, `p99_ms` fields absent, so a per-skill
`get_success_rate_trend` over a stats table whose rows all satisfy that
(as any table populated by the aggregator does) only returns rows with
absent percentile fields. -/
theorem daily_aggregate_percentiles_none :
    (∀ (events : List SkillEventRow) (date : String) (r : DailyStats),
      r ∈ aggregateDailyStats events date →
      r.p50_ms = none ∧ r.p95_ms = none ∧ r.p99_ms = none) ∧
    (∀ (stats : List DailyStats) (sid : String) (days now : Int) (r : DailyStats),
      (∀ s ∈ stats, s.p50_ms = none ∧ s.p95_ms = none ∧ s.p99_ms = none) →
      r ∈ getSuccessRateTrend stats (some sid) days now →
      r.p50_ms = none ∧ r.p95_ms = none ∧ r.p99_ms = none) := by
  constructor
  · intro events date r hr
    simp only [aggregateDailyStats, List.mem_map] at hr
    obtain ⟨sid, hsid, hr⟩ := hr
    subst hr
    exact ⟨rfl, rfl, rfl⟩
  · intro stats sid days now r hall hr
    simp only [getSuccessRateTrend] at hr
    rw [mem_sortListBy, List.mem_filter] at hr
    exact hall r hr.1

/-- C10 witness: the rollup of one raw event and its trend row. -/
theorem daily_aggregate_percentiles_none_witness :
    (aggRow ∈ getSuccessRateTrend aggStats (some ("s")) 30 86400) ∧
    (aggRow.p50_ms = none ∧ aggRow.p95_ms = none ∧ aggRow.p99_ms = none) :=
  ⟨by decide,
   daily_aggregate_percentiles_none.2 aggStats ("s") 30 86400 aggRow
     (by decide) (by decide)⟩

end SkillHub
